import Mathlib

/-!
Verification of the metrics aggregation engine of the AI coding evaluation
framework (`src/analysis/metrics_calculator.py`).

The event store (SQLAlchemy over a relational DB, `src/database/models.py`)
is embedded as explicit lists of records; a query
`db.query(T).filter(T.session_id == sid)` becomes a `List.filter` over the
corresponding list.  Timestamps (Python `datetime`) are rationals counting
seconds, so `(t2 - t1).total_seconds() / 60` becomes `(t2 - t1) / 60`;
`datetime.now()` is an explicit `now` parameter threaded through the calls
that fall back to it.  Python strings handled with `startswith`/`replace`
are embedded as `List Char` so that the prefix/replace semantics is the
one actually implemented here; strings only ever compared for equality
stay `String`.  Nullable columns are `Option`; Python truthiness tests on
numbers/strings/lists are spelled out (`none` or `0` / `""` / `[]` are
falsy).
-/

namespace AIEval

/-! ## Python string primitives on `List Char` -/

/-- Python `s.startswith(pat)`. -/
def strStartsWith (s pat : List Char) : Bool :=
  pat.isPrefixOf s

/-- Recursion kernel for `strReplace`, structural on the fuel (which callers
set to the length of the string, enough to consume it). -/
def strReplaceAux (pat rep : List Char) : Nat → List Char → List Char
  | 0, s => s
  | _ + 1, [] => []
  | fuel + 1, c :: rest =>
    match pat, pat.isPrefixOf (c :: rest) with
    | _ :: ptail, true => rep ++ strReplaceAux pat rep fuel (rest.drop ptail.length)
    | _, _ => c :: strReplaceAux pat rep fuel rest

/-- Python `s.replace(pat, rep)`: every non-overlapping occurrence of `pat`
is replaced, scanning left to right (not only a prefix). -/
def strReplace (s pat rep : List Char) : List Char :=
  strReplaceAux pat rep s.length s

/-! ## Python dict (insertion ordered, last write wins) as an assoc list -/

/-- Python `d[k] = v`: replace in place when the key exists, else append. -/
def dictInsert {α : Type} (l : List (List Char × α)) (k : List Char) (v : α) :
    List (List Char × α) :=
  if l.any (fun p => p.1 == k) then l.map (fun p => if p.1 == k then (k, v) else p)
  else l ++ [(k, v)]

/-- Python `d.get(k)` / `k in d`: the value of the first (hence only) entry
with this key. -/
def dictFind? {α : Type} (l : List (List Char × α)) (k : List Char) : Option α :=
  (l.find? (fun p => p.1 == k)).map (fun p => p.2)

/-- Python truthiness of an optional string (`None` and `""` are falsy):
normalised so that a falsy value behaves like `None`. -/
def truthyStr : Option String → Option String
  | some "" => none
  | o => o

/-! ## `statistics` helpers -/

/-- `statistics.mean` on a list known to be non-empty at the call site. -/
def mean (l : List ℚ) : ℚ :=
  l.sum / l.length

/-- `statistics.mean`, surfacing the `StatisticsError` a Python call on an
empty list raises as `none`. -/
def mean? (l : List ℚ) : Option ℚ :=
  if l.isEmpty then none else some (mean l)

/-- Stable insertion into a list sorted by the measure `ts`. -/
def insertSorted {α : Type} (ts : α → ℚ) (x : α) : List α → List α
  | [] => [x]
  | y :: ys => if ts x ≤ ts y then x :: y :: ys else y :: insertSorted ts x ys

/-- Stable sort by the measure `ts` (the store's `ORDER BY timestamp` /
`statistics.median`'s internal sort). -/
def sortOn {α : Type} (ts : α → ℚ) : List α → List α
  | [] => []
  | x :: xs => insertSorted ts x (sortOn ts xs)

/-- `statistics.median`: middle of the sorted data, or the mean of the two
middles for even length. -/
def median (l : List ℚ) : ℚ :=
  let s := sortOn id l
  let n := s.length
  if n % 2 = 1 then s.getD (n / 2) 0
  else (s.getD (n / 2 - 1) 0 + s.getD (n / 2) 0) / 2

/-- Python `min` over a non-empty list. -/
def listMin : List ℚ → ℚ
  | [] => 0
  | x :: xs => xs.foldl min x

/-- Python `max` over a non-empty list. -/
def listMax : List ℚ → ℚ
  | [] => 0
  | x :: xs => xs.foldl max x

/-- The sample variance `statistics.stdev` takes the square root of (only
ever used with at least two data points). -/
def sampleVariance (l : List ℚ) : ℚ :=
  (l.map (fun x => (x - mean l) ^ 2)).sum / (l.length - 1)

/-- `statistics.stdev` (the square root lives in `ℝ`). -/
noncomputable def sampleStdev (l : List ℚ) : ℝ :=
  Real.sqrt ((sampleVariance l : ℚ) : ℝ)

/-! ## Data model (`src/database/models.py`), the columns the engine reads -/

/-- `TestSession` (models.py). -/
structure TestSession where
  id : Nat
  session_name : String
  tool_name : String
  test_case_type : String
  developer_id : Option String
  start_time : ℚ
  end_time : Option ℚ
  status : String
deriving DecidableEq

/-- `AIInteraction` (models.py). -/
structure AIInteraction where
  session_id : Nat
  timestamp : ℚ
  quality_rating : Option ℚ
  was_helpful : Option Bool
  tokens_used : Option ℤ
  cost_estimate : Option ℚ
deriving DecidableEq

/-- `CodeChange` (models.py). -/
structure CodeChange where
  session_id : Nat
  file_path : String
  change_type : String
  timestamp : ℚ
  lines_added : Option ℤ
  lines_deleted : Option ℤ
  lines_modified : Option ℤ
  ai_generated : Bool
deriving DecidableEq

/-- `DevelopmentMilestone` (models.py); the name drives phase segmentation. -/
structure DevelopmentMilestone where
  session_id : Nat
  milestone_name : List Char
  timestamp : ℚ
deriving DecidableEq

/-- `BuildResult` (models.py): only the columns the engine reads.  The
table has NO `tests_passed`/`tests_failed` columns (those belong to
`QualityMetric`), which matters to `_calculate_quality_metrics` below. -/
structure BuildResult where
  session_id : Nat
  build_type : String
  success : Bool
deriving DecidableEq

/-- `DeveloperFeedback` (models.py). -/
structure DeveloperFeedback where
  session_id : Nat
  overall_satisfaction : Option ℚ
  ease_of_use_rating : Option ℚ
  productivity_rating : Option ℚ
  would_recommend : Option Bool
deriving DecidableEq

/-- The event store: one list per table. -/
structure DB where
  sessions : List TestSession
  interactions : List AIInteraction
  code_changes : List CodeChange
  milestones : List DevelopmentMilestone
  builds : List BuildResult
  feedbacks : List DeveloperFeedback
deriving DecidableEq

/-! ## The intermediate dicts of `MetricsCalculator` as records -/

/-- Return value of `_calculate_timing_metrics`. -/
structure TimingMetrics where
  duration_minutes : ℚ
  duration_hours : ℚ
deriving DecidableEq

/-- Return value of `_calculate_code_metrics`. -/
structure CodeMetrics where
  total_changes : Nat
  files_created : Nat
  files_modified : Nat
  files_deleted : Nat
  lines_added : ℤ
  lines_deleted : ℤ
  lines_modified : ℤ
  unique_files : Nat
  ai_generated_changes : Nat
deriving DecidableEq

/-- Return value of `_calculate_ai_metrics`. -/
structure AiMetrics where
  total_interactions : Nat
  interactions_per_hour : ℚ
  avg_quality_rating : ℚ
  helpful_percentage : ℚ
  total_tokens : ℤ
  total_cost : ℚ
deriving DecidableEq

/-- Return value of `_calculate_phase_metrics`. -/
structure PhaseMetrics where
  total_phases : Nat
  phase_durations : List (List Char × ℚ)
  phase_ai_usage : List (List Char × Nat)
deriving DecidableEq

/-- Return value of `_calculate_productivity_metrics`. -/
structure ProductivityMetrics where
  lines_per_minute : ℚ
  files_per_hour : ℚ
  commits_per_hour : ℚ
  ai_assistance_ratio : ℚ
deriving DecidableEq

/-- Return value of `_calculate_quality_metrics`. -/
structure QualityMetrics where
  build_success_rate : ℚ
  test_pass_rate : ℚ
  code_quality_score : ℚ
deriving DecidableEq

/-- Return value of `_calculate_feedback_metrics` (`{}` when the session has
no feedback row: every `.get` then yields `None`). -/
structure FeedbackMetrics where
  satisfaction_rating : Option ℚ
  ease_of_use_rating : Option ℚ
  productivity_rating : Option ℚ
  would_recommend : Option Bool
deriving DecidableEq

/-- The `SessionMetrics` dataclass. -/
structure SessionMetrics where
  session_id : Nat
  session_name : String
  tool_name : String
  test_case_type : String
  developer_id : String
  total_duration_minutes : ℚ
  start_time : ℚ
  end_time : ℚ
  total_code_changes : Nat
  files_created : Nat
  files_modified : Nat
  files_deleted : Nat
  lines_added : ℤ
  lines_deleted : ℤ
  lines_modified : ℤ
  total_ai_interactions : Nat
  ai_interactions_per_hour : ℚ
  average_quality_rating : ℚ
  helpful_interactions_percentage : ℚ
  total_tokens_used : ℤ
  total_cost_estimate : ℚ
  total_phases : Nat
  phase_durations : List (List Char × ℚ)
  phase_ai_usage : List (List Char × Nat)
  lines_per_minute : ℚ
  files_per_hour : ℚ
  commits_per_hour : ℚ
  ai_assistance_ratio : ℚ
  build_success_rate : ℚ
  test_pass_rate : ℚ
  code_quality_score : ℚ
  satisfaction_rating : Option ℚ
  ease_of_use_rating : Option ℚ
  productivity_rating : Option ℚ
  would_recommend : Option Bool
deriving DecidableEq

/-- The `ComparisonMetrics` dataclass. -/
structure ComparisonMetrics where
  tool_a_name : String
  tool_b_name : String
  test_case_type : String
  speed_improvement_percentage : ℚ
  productivity_improvement_percentage : ℚ
  code_quality_improvement_percentage : ℚ
  ai_interaction_difference : ℚ
  token_usage_difference : ℚ
  cost_difference : ℚ
  satisfaction_difference : ℚ
  preference_winner : String
  sample_size_a : Nat
  sample_size_b : Nat
  confidence_level : ℚ
deriving DecidableEq

/-! ## `MetricsCalculator` translated -/

/-- `_calculate_timing_metrics`: duration from start to end (falling back on
`now` for an open session), in minutes and hours. -/
def calculate_timing_metrics (now : ℚ) (session : TestSession) : TimingMetrics :=
  let end_time := session.end_time.getD now
  let duration := (end_time - session.start_time) / 60
  { duration_minutes := duration, duration_hours := duration / 60 }

/-- `_calculate_code_metrics`. -/
def calculate_code_metrics (db : DB) (session_id : Nat) : CodeMetrics :=
  let changes := db.code_changes.filter (fun c => c.session_id == session_id)
  { total_changes := changes.length
    files_created := (changes.filter (fun c => c.change_type == "create")).length
    files_modified := (changes.filter (fun c => c.change_type == "modify")).length
    files_deleted := (changes.filter (fun c => c.change_type == "delete")).length
    lines_added := (changes.map (fun c => c.lines_added.getD 0)).sum
    lines_deleted := (changes.map (fun c => c.lines_deleted.getD 0)).sum
    lines_modified := (changes.map (fun c => c.lines_modified.getD 0)).sum
    unique_files := ((changes.map (fun c => c.file_path)).eraseDups).length
    ai_generated_changes := (changes.filter (fun c => c.ai_generated)).length }

/-- `_calculate_ai_metrics`.  The Python body re-fetches the session by id to
get the duration; here the (identically obtained) session record is passed
in by the one caller. -/
def calculate_ai_metrics (db : DB) (now : ℚ) (session : TestSession) : AiMetrics :=
  let interactions := db.interactions.filter (fun i => i.session_id == session.id)
  if interactions.isEmpty then
    { total_interactions := 0, interactions_per_hour := 0, avg_quality_rating := 0
      helpful_percentage := 0, total_tokens := 0, total_cost := 0 }
  else
    let duration_hours := (calculate_timing_metrics now session).duration_hours
    let quality_ratings :=
      (interactions.filterMap (fun i => i.quality_rating)).filter (fun q => q != 0)
    let helpful_count := (interactions.filter (fun i => i.was_helpful == some true)).length
    { total_interactions := interactions.length
      interactions_per_hour :=
        if duration_hours > 0 then (interactions.length : ℚ) / duration_hours else 0
      avg_quality_rating := if quality_ratings.isEmpty then 0 else mean quality_ratings
      helpful_percentage :=
        if interactions.isEmpty then 0
        else ((helpful_count : ℚ) / (interactions.length : ℚ)) * 100
      total_tokens := (interactions.map (fun i => i.tokens_used.getD 0)).sum
      total_cost := (interactions.map (fun i => i.cost_estimate.getD 0)).sum }

/-- `'phase_start_'` -/
def phaseStartMark : List Char := "phase_start_".data

/-- `'phase_complete_'` -/
def phaseCompleteMark : List Char := "phase_complete_".data

/-- One iteration of the milestone loop of `_calculate_phase_metrics`,
carried state `(phase_starts, phase_durations)`.  A completion that matches
an open start records the duration; the start is NOT removed from
`phase_starts`. -/
def phaseStep (st : List (List Char × ℚ) × List (List Char × ℚ))
    (m : DevelopmentMilestone) : List (List Char × ℚ) × List (List Char × ℚ) :=
  if strStartsWith m.milestone_name phaseStartMark then
    (dictInsert st.1 (strReplace m.milestone_name phaseStartMark []) m.timestamp, st.2)
  else if strStartsWith m.milestone_name phaseCompleteMark then
    match dictFind? st.1 (strReplace m.milestone_name phaseCompleteMark []) with
    | some t0 =>
        (st.1, dictInsert st.2 (strReplace m.milestone_name phaseCompleteMark [])
          ((m.timestamp - t0) / 60))
    | none => st
  else st

/-- The session's milestones, `ORDER BY timestamp`. -/
def sessionMilestones (db : DB) (session_id : Nat) : List DevelopmentMilestone :=
  sortOn (fun m => m.timestamp) (db.milestones.filter (fun m => m.session_id == session_id))

/-- One iteration of the second loop of `_calculate_phase_metrics`: for a
tracked start `p`, the first milestone named exactly `phase_complete_<name>`
closes the window, and the AI interactions of the session inside
`[start, complete]` (both ends inclusive) are counted; a phase with no
completion contributes nothing (`if end_time:`). -/
def phaseAiStep (db : DB) (session_id : Nat) (milestones : List DevelopmentMilestone)
    (acc : List (List Char × Nat)) (p : List Char × ℚ) : List (List Char × Nat) :=
  match milestones.find? (fun m => m.milestone_name == phaseCompleteMark ++ p.1) with
  | some m =>
      dictInsert acc p.1
        ((db.interactions.filter (fun i =>
          i.session_id == session_id && decide (p.2 ≤ i.timestamp)
            && decide (i.timestamp ≤ m.timestamp))).length)
  | none => acc

/-- The second loop of `_calculate_phase_metrics` over every tracked start. -/
def phaseAiUsage (db : DB) (session_id : Nat) (milestones : List DevelopmentMilestone)
    (phase_starts : List (List Char × ℚ)) : List (List Char × Nat) :=
  phase_starts.foldl (phaseAiStep db session_id milestones) []

/-- `_calculate_phase_metrics`. -/
def calculate_phase_metrics (db : DB) (session_id : Nat) : PhaseMetrics :=
  let milestones := sessionMilestones db session_id
  let sd := milestones.foldl phaseStep ([], [])
  { total_phases := sd.2.length
    phase_durations := sd.2
    phase_ai_usage := phaseAiUsage db session_id milestones sd.1 }

/-- `_calculate_productivity_metrics`. -/
def calculate_productivity_metrics (timing : TimingMetrics) (code : CodeMetrics)
    (ai : AiMetrics) : ProductivityMetrics :=
  let total_actions := code.total_changes + ai.total_interactions
  { lines_per_minute :=
      if timing.duration_minutes > 0 then (code.lines_added : ℚ) / timing.duration_minutes
      else 0
    files_per_hour :=
      if timing.duration_hours > 0 then (code.unique_files : ℚ) / timing.duration_hours
      else 0
    commits_per_hour := 0
    ai_assistance_ratio :=
      if total_actions > 0 then (ai.total_interactions : ℚ) / (total_actions : ℚ) else 0 }

/-- `_calculate_quality_metrics`.  When `test_builds` is non-empty the
source evaluates `b.tests_passed` — an attribute `BuildResult` (models.py)
does not have, so Python raises `AttributeError` before any rate is
computed; that fault is `none` here (the caller's catch-all `except` turns
it into an absent metrics record).  With no test-type builds the
`test_pass_rate` keeps its initial 0. -/
def calculate_quality_metrics (db : DB) (session_id : Nat) : Option QualityMetrics :=
  let builds := db.builds.filter (fun b => b.session_id == session_id)
  if builds.isEmpty then
    some { build_success_rate := 0, test_pass_rate := 0, code_quality_score := 0 }
  else
    let successful_builds := (builds.filter (fun b => b.success)).length
    let build_success_rate := ((successful_builds : ℚ) / (builds.length : ℚ)) * 100
    let test_builds := builds.filter (fun b => b.build_type == "test")
    if test_builds.isEmpty then
      let test_pass_rate : ℚ := 0
      some
        { build_success_rate := build_success_rate
          test_pass_rate := test_pass_rate
          code_quality_score := (build_success_rate + test_pass_rate) / 2 }
    else none

/-- `_calculate_feedback_metrics`. -/
def calculate_feedback_metrics (db : DB) (session_id : Nat) : FeedbackMetrics :=
  match db.feedbacks.find? (fun f => f.session_id == session_id) with
  | none =>
      { satisfaction_rating := none, ease_of_use_rating := none
        productivity_rating := none, would_recommend := none }
  | some feedback =>
      { satisfaction_rating := feedback.overall_satisfaction
        ease_of_use_rating := feedback.ease_of_use_rating
        productivity_rating := feedback.productivity_rating
        would_recommend := feedback.would_recommend }

/-- Assembly of the `SessionMetrics` record for a session found in the
store, given the quality sub-record whose computation did not fault (the
body of `calculate_session_metrics` after the `None` check). -/
def buildSessionMetrics (db : DB) (now : ℚ) (session_id : Nat)
    (session : TestSession) (quality : QualityMetrics) : SessionMetrics :=
  let timing := calculate_timing_metrics now session
  let code := calculate_code_metrics db session_id
  let ai := calculate_ai_metrics db now session
  let phase := calculate_phase_metrics db session_id
  let productivity := calculate_productivity_metrics timing code ai
  let feedback := calculate_feedback_metrics db session_id
  { session_id := session_id
    session_name := session.session_name
    tool_name := session.tool_name
    test_case_type := session.test_case_type
    developer_id := (truthyStr session.developer_id).getD "unknown"
    total_duration_minutes := timing.duration_minutes
    start_time := session.start_time
    end_time := session.end_time.getD now
    total_code_changes := code.total_changes
    files_created := code.files_created
    files_modified := code.files_modified
    files_deleted := code.files_deleted
    lines_added := code.lines_added
    lines_deleted := code.lines_deleted
    lines_modified := code.lines_modified
    total_ai_interactions := ai.total_interactions
    ai_interactions_per_hour := ai.interactions_per_hour
    average_quality_rating := ai.avg_quality_rating
    helpful_interactions_percentage := ai.helpful_percentage
    total_tokens_used := ai.total_tokens
    total_cost_estimate := ai.total_cost
    total_phases := phase.total_phases
    phase_durations := phase.phase_durations
    phase_ai_usage := phase.phase_ai_usage
    lines_per_minute := productivity.lines_per_minute
    files_per_hour := productivity.files_per_hour
    commits_per_hour := productivity.commits_per_hour
    ai_assistance_ratio := productivity.ai_assistance_ratio
    build_success_rate := quality.build_success_rate
    test_pass_rate := quality.test_pass_rate
    code_quality_score := quality.code_quality_score
    satisfaction_rating := feedback.satisfaction_rating
    ease_of_use_rating := feedback.ease_of_use_rating
    productivity_rating := feedback.productivity_rating
    would_recommend := feedback.would_recommend }

/-- `calculate_session_metrics`: `None` when the session id is not in the
store — and also for every session with a test-type build, whose
`AttributeError` (see `calculate_quality_metrics`) is swallowed by the
catch-all `except` at the end of the source method. -/
def calculate_session_metrics (db : DB) (now : ℚ) (session_id : Nat) :
    Option SessionMetrics :=
  match db.sessions.find? (fun s => s.id == session_id) with
  | none => none
  | some session =>
    match calculate_quality_metrics db session_id with
    | some quality => some (buildSessionMetrics db now session_id session quality)
    | none => none

/-! ## `calculate_tool_comparison` -/

/-- The completed-session cohort of one tool: `tool_name` filter, optional
`test_case_type` filter, `status == 'completed'` filter. -/
def toolSessions (db : DB) (tool : String) (tct : Option String) : List TestSession :=
  let q := db.sessions.filter (fun s => s.tool_name == tool)
  let q : List TestSession :=
    match truthyStr tct with
    | some t => q.filter (fun s => s.test_case_type == t)
    | none => q
  q.filter (fun s => s.status == "completed")

/-- Per-session metrics of a cohort; `None` results — every session whose
metrics computation faulted, i.e. any with a test-type build — are
dropped. -/
def cohortMetrics (db : DB) (now : ℚ) (tool : String) (tct : Option String) :
    List SessionMetrics :=
  ((toolSessions db tool tct).map (fun s => calculate_session_metrics db now s.id)).filterMap id

/-- `[m.satisfaction_rating for m in metrics if m.satisfaction_rating]`:
absent ratings and (falsy) zero ratings are dropped. -/
def truthySats (metrics : List SessionMetrics) : List ℚ :=
  (metrics.filterMap (fun m => m.satisfaction_rating)).filter (fun q => q != 0)

/-- The comparison record `calculate_tool_comparison` assembles once both
cohorts passed the emptiness guards and both satisfaction means exist
(lines 400-441 of the source, the `let` bindings inlined verbatim). -/
def mkComparison (tool_a tool_b : String) (test_case_type : Option String)
    (metrics_a metrics_b : List SessionMetrics)
    (avg_satisfaction_a avg_satisfaction_b : ℚ) : ComparisonMetrics :=
  let avg_duration_a := mean (metrics_a.map (fun m => m.total_duration_minutes))
  let avg_duration_b := mean (metrics_b.map (fun m => m.total_duration_minutes))
  let avg_productivity_a := mean (metrics_a.map (fun m => m.lines_per_minute))
  let avg_productivity_b := mean (metrics_b.map (fun m => m.lines_per_minute))
  let avg_quality_a := mean (metrics_a.map (fun m => m.code_quality_score))
  let avg_quality_b := mean (metrics_b.map (fun m => m.code_quality_score))
  let speed_improvement :=
    if avg_duration_b > 0 then ((avg_duration_b - avg_duration_a) / avg_duration_b) * 100
    else 0
  let productivity_improvement :=
    if avg_productivity_b > 0 then
      ((avg_productivity_a - avg_productivity_b) / avg_productivity_b) * 100
    else 0
  let quality_improvement :=
    if avg_quality_b > 0 then ((avg_quality_a - avg_quality_b) / avg_quality_b) * 100
    else 0
  let satisfaction_difference := avg_satisfaction_a - avg_satisfaction_b
  let preference_winner :=
    if satisfaction_difference > 1/2 then tool_a
    else if satisfaction_difference < -(1/2) then tool_b
    else "tie"
  { tool_a_name := tool_a
    tool_b_name := tool_b
    test_case_type := (truthyStr test_case_type).getD "all"
    speed_improvement_percentage := speed_improvement
    productivity_improvement_percentage := productivity_improvement
    code_quality_improvement_percentage := quality_improvement
    ai_interaction_difference := 0
    token_usage_difference := 0
    cost_difference := 0
    satisfaction_difference := satisfaction_difference
    preference_winner := preference_winner
    sample_size_a := metrics_a.length
    sample_size_b := metrics_b.length
    confidence_level := 19/20 }

/-- `calculate_tool_comparison`.  `None` when a cohort is empty — and also
when `statistics.mean` is handed an empty satisfaction list and its
`StatisticsError` lands in the catch-all `except`. -/
def calculate_tool_comparison (db : DB) (now : ℚ) (tool_a tool_b : String)
    (test_case_type : Option String) : Option ComparisonMetrics :=
  if (toolSessions db tool_a test_case_type).isEmpty
      || (toolSessions db tool_b test_case_type).isEmpty then none
  else if (cohortMetrics db now tool_a test_case_type).isEmpty
      || (cohortMetrics db now tool_b test_case_type).isEmpty then none
  else
    match mean? (truthySats (cohortMetrics db now tool_a test_case_type)),
        mean? (truthySats (cohortMetrics db now tool_b test_case_type)) with
    | some avg_satisfaction_a, some avg_satisfaction_b =>
      some (mkComparison tool_a tool_b test_case_type
        (cohortMetrics db now tool_a test_case_type)
        (cohortMetrics db now tool_b test_case_type)
        avg_satisfaction_a avg_satisfaction_b)
    | _, _ => none

/-! ## `get_session_summary_stats` -/

/-- The summary's nested result dict, flattened to one record
(`duration.std_dev` needs `ℝ`, everything else stays rational). -/
structure SummaryStats where
  total_sessions : Nat
  duration_mean : ℚ
  duration_median : ℚ
  duration_min : ℚ
  duration_max : ℚ
  duration_std_dev : ℝ
  productivity_mean : ℚ
  productivity_median : ℚ
  productivity_min : ℚ
  productivity_max : ℚ
  quality_mean : ℚ
  quality_median : ℚ
  quality_min : ℚ
  quality_max : ℚ
  satisfaction_mean : ℚ
  satisfaction_count : Nat

/-- The sessions the summary query matches: completed, then the two
(truthiness-guarded) optional filters. -/
def summarySessions (db : DB) (tool_name tct : Option String) : List TestSession :=
  let q := db.sessions.filter (fun s => s.status == "completed")
  let q : List TestSession :=
    match truthyStr tool_name with
    | some t => q.filter (fun s => s.tool_name == t)
    | none => q
  match truthyStr tct with
  | some t => q.filter (fun s => s.test_case_type == t)
  | none => q

/-- The per-session metrics of every matched session (`all_metrics` in the
source); `None` results — sessions whose metrics computation faulted —
are dropped. -/
def summaryMetrics (db : DB) (now : ℚ) (tool_name tct : Option String) :
    List SessionMetrics :=
  ((summarySessions db tool_name tct).map
    (fun s => calculate_session_metrics db now s.id)).filterMap id

/-- `get_session_summary_stats`; `none` is the `{}` of the empty cohort. -/
noncomputable def get_session_summary_stats (db : DB) (now : ℚ)
    (tool_name tct : Option String) : Option SummaryStats :=
  let sessions := summarySessions db tool_name tct
  if sessions.isEmpty then none
  else
    let all_metrics := summaryMetrics db now tool_name tct
    if all_metrics.isEmpty then none
    else
      let durations := all_metrics.map (fun m => m.total_duration_minutes)
      let productivities := all_metrics.map (fun m => m.lines_per_minute)
      let qualities := all_metrics.map (fun m => m.code_quality_score)
      let satisfactions := truthySats all_metrics
      some
        { total_sessions := all_metrics.length
          duration_mean := mean durations
          duration_median := median durations
          duration_min := listMin durations
          duration_max := listMax durations
          duration_std_dev := if durations.length > 1 then sampleStdev durations else 0
          productivity_mean := mean productivities
          productivity_median := median productivities
          productivity_min := listMin productivities
          productivity_max := listMax productivities
          quality_mean := mean qualities
          quality_median := median qualities
          quality_min := listMin qualities
          quality_max := listMax qualities
          satisfaction_mean := if satisfactions.isEmpty then 0 else mean satisfactions
          satisfaction_count := satisfactions.length }

/-! ## Basic lemmas about the embedded primitives -/

theorem mem_dictInsert {α : Type} {l : List (List Char × α)} {k : List Char} {v : α}
    {q : List Char × α} (h : q ∈ dictInsert l k v) : q ∈ l ∨ q = (k, v) := by
  unfold dictInsert at h
  split at h
  · rcases List.mem_map.mp h with ⟨p, hp, hq⟩
    by_cases hk : (p.1 == k) = true
    · right
      simp only [if_pos hk] at hq
      exact hq.symm
    · left
      simp only [if_neg hk] at hq
      exact hq ▸ hp
  · rcases List.mem_append.mp h with h1 | h1
    · exact Or.inl h1
    · simp only [List.mem_singleton] at h1
      exact Or.inr h1

theorem dictFind?_mem {α : Type} {l : List (List Char × α)} {k : List Char} {v : α}
    (h : dictFind? l k = some v) : (k, v) ∈ l := by
  unfold dictFind? at h
  rcases Option.map_eq_some'.mp h with ⟨p, hfind, hv⟩
  have hmem := List.mem_of_find?_eq_some hfind
  have hpk : p.1 = k := by simpa using List.find?_some hfind
  have hpq : (k, v) = p := by
    cases p
    simp_all
  exact hpq ▸ hmem

theorem mean?_eq_some {l : List ℚ} {x : ℚ} :
    mean? l = some x ↔ l ≠ [] ∧ x = mean l := by
  unfold mean?
  rcases l with _ | ⟨y, ys⟩ <;> simp [eq_comm]

/-- Sign lemma for the comparator's relative percentages: with the roles of
the two means swapped (and the denominator-positivity guard zeroing the
value otherwise), the two values can never be strictly on the same side
of zero. -/
theorem relDeltaProd_nonpos (u v : ℚ) :
    (if v > 0 then (v - u) / v * 100 else 0) * (if u > 0 then (u - v) / u * 100 else 0) ≤ 0 := by
  split_ifs with h1 h2 h2
  · have key : (v - u) / v * 100 * ((u - v) / u * 100) = -((u - v) ^ 2 * 10000) / (v * u) := by
      field_simp
      ring
    rw [key]
    apply div_nonpos_of_nonpos_of_nonneg
    · nlinarith [sq_nonneg (u - v)]
    · positivity
  all_goals simp

/-- Variant of `relDeltaProd_nonpos` with the numerators the other way
round (the productivity/quality percentage orientation). -/
theorem relDeltaProdRev_nonpos (u v : ℚ) :
    (if v > 0 then (u - v) / v * 100 else 0) * (if u > 0 then (v - u) / u * 100 else 0) ≤ 0 := by
  split_ifs with h1 h2 h2
  · have key : (u - v) / v * 100 * ((v - u) / u * 100) = -((u - v) ^ 2 * 10000) / (v * u) := by
      field_simp
      ring
    rw [key]
    apply div_nonpos_of_nonpos_of_nonneg
    · nlinarith [sq_nonneg (u - v)]
    · positivity
  all_goals simp

/-! ## Extraction lemmas for the aggregation entry points -/

theorem calculate_session_metrics_eq_some {db : DB} {now : ℚ} {sid : Nat}
    {m : SessionMetrics} :
    calculate_session_metrics db now sid = some m ↔
      ∃ s, db.sessions.find? (fun s2 => s2.id == sid) = some s ∧
        ∃ q, calculate_quality_metrics db sid = some q ∧
          m = buildSessionMetrics db now sid s q := by
  unfold calculate_session_metrics
  cases hfind : db.sessions.find? (fun s2 => s2.id == sid) with
  | none => simp
  | some s =>
    cases hq : calculate_quality_metrics db sid with
    | none => simp [hq]
    | some q => simp [hq, eq_comm]

theorem calculate_tool_comparison_eq_some {db : DB} {now : ℚ} {a b : String}
    {t : Option String} {c : ComparisonMetrics} :
    calculate_tool_comparison db now a b t = some c ↔
      (toolSessions db a t).isEmpty = false ∧ (toolSessions db b t).isEmpty = false ∧
      (cohortMetrics db now a t).isEmpty = false ∧
      (cohortMetrics db now b t).isEmpty = false ∧
      truthySats (cohortMetrics db now a t) ≠ [] ∧
      truthySats (cohortMetrics db now b t) ≠ [] ∧
      c = mkComparison a b t (cohortMetrics db now a t) (cohortMetrics db now b t)
            (mean (truthySats (cohortMetrics db now a t)))
            (mean (truthySats (cohortMetrics db now b t))) := by
  unfold calculate_tool_comparison
  constructor
  · intro h
    split at h
    · exact absurd h (by simp)
    · next hguard1 =>
      split at h
      · exact absurd h (by simp)
      · next hguard2 =>
        split at h
        · next sa sb hsa hsb =>
          rcases mean?_eq_some.mp hsa with ⟨hne_a, rfl⟩
          rcases mean?_eq_some.mp hsb with ⟨hne_b, rfl⟩
          rcases Bool.or_eq_false_iff.mp (Bool.not_eq_true _ ▸ hguard1) with ⟨g1, g2⟩
          rcases Bool.or_eq_false_iff.mp (Bool.not_eq_true _ ▸ hguard2) with ⟨g3, g4⟩
          exact ⟨g1, g2, g3, g4, hne_a, hne_b, (Option.some_inj.mp h).symm⟩
        · next hmiss =>
          exact absurd h (by simp)
  · rintro ⟨g1, g2, g3, g4, hne_a, hne_b, rfl⟩
    rw [if_neg (by simp [g1, g2]), if_neg (by simp [g3, g4])]
    rw [mean?_eq_some.mpr ⟨hne_a, rfl⟩, mean?_eq_some.mpr ⟨hne_b, rfl⟩]

/-! ## Invariants of the phase segmenter's folds -/

/-- Every entry of the open-starts dict is the (replaced) name and the
timestamp of some `phase_start_` milestone of the list. -/
def StartsFrom (ms : List DevelopmentMilestone) (starts : List (List Char × ℚ)) : Prop :=
  ∀ q ∈ starts, ∃ m ∈ ms, strStartsWith m.milestone_name phaseStartMark = true ∧
    strReplace m.milestone_name phaseStartMark [] = q.1 ∧ m.timestamp = q.2

/-- Every entry of the durations dict is witnessed by a `phase_start_` and a
`phase_complete_` milestone of the list carrying the same phase name, the
recorded value their distance in minutes (possibly negative, never
clamped). -/
def DurationsFrom (ms : List DevelopmentMilestone) (durs : List (List Char × ℚ)) : Prop :=
  ∀ q ∈ durs, ∃ m1 ∈ ms, ∃ m2 ∈ ms,
    strStartsWith m1.milestone_name phaseStartMark = true ∧
    strReplace m1.milestone_name phaseStartMark [] = q.1 ∧
    strStartsWith m2.milestone_name phaseCompleteMark = true ∧
    strReplace m2.milestone_name phaseCompleteMark [] = q.1 ∧
    q.2 = (m2.timestamp - m1.timestamp) / 60

theorem phaseStep_inv {ms : List DevelopmentMilestone} {m : DevelopmentMilestone}
    (hm : m ∈ ms) (st : List (List Char × ℚ) × List (List Char × ℚ))
    (h1 : StartsFrom ms st.1) (h2 : DurationsFrom ms st.2) :
    StartsFrom ms (phaseStep st m).1 ∧ DurationsFrom ms (phaseStep st m).2 := by
  unfold phaseStep
  by_cases hs : strStartsWith m.milestone_name phaseStartMark = true
  · rw [if_pos hs]
    refine ⟨fun q hq => ?_, h2⟩
    rcases mem_dictInsert hq with hold | rfl
    · exact h1 q hold
    · exact ⟨m, hm, hs, rfl, rfl⟩
  · rw [if_neg (by simpa using hs)]
    by_cases hc : strStartsWith m.milestone_name phaseCompleteMark = true
    · rw [if_pos hc]
      cases hfind : dictFind? st.1 (strReplace m.milestone_name phaseCompleteMark []) with
      | none => exact ⟨h1, h2⟩
      | some t0 =>
        refine ⟨h1, fun q hq => ?_⟩
        rcases mem_dictInsert hq with hold | rfl
        · exact h2 q hold
        · rcases h1 _ (dictFind?_mem hfind) with ⟨m1, hm1, hm1s, hm1r, hm1t⟩
          exact ⟨m1, hm1, m, hm, hm1s, hm1r, hc, rfl, by rw [hm1t]⟩
    · rw [if_neg (by simpa using hc)]
      exact ⟨h1, h2⟩

theorem foldl_phaseStep_inv (ms : List DevelopmentMilestone) :
    ∀ l : List DevelopmentMilestone, (∀ x ∈ l, x ∈ ms) →
      ∀ st : List (List Char × ℚ) × List (List Char × ℚ),
        StartsFrom ms st.1 → DurationsFrom ms st.2 →
        StartsFrom ms (l.foldl phaseStep st).1 ∧ DurationsFrom ms (l.foldl phaseStep st).2 := by
  intro l
  induction l with
  | nil => exact fun _ st h1 h2 => ⟨h1, h2⟩
  | cons m rest ih =>
    intro hsub st h1 h2
    have hm : m ∈ ms := hsub m (List.mem_cons_self _ _)
    have hrest : ∀ x ∈ rest, x ∈ ms := fun x hx => hsub x (List.mem_cons_of_mem _ hx)
    rw [List.foldl_cons]
    have hstep := phaseStep_inv hm st h1 h2
    exact ih hrest (phaseStep st m) hstep.1 hstep.2

theorem phaseAiUsage_sound (db : DB) (sid : Nat) (ms : List DevelopmentMilestone)
    (starts : List (List Char × ℚ)) :
    ∀ q ∈ phaseAiUsage db sid ms starts, ∃ t0, (q.1, t0) ∈ starts ∧
      ∃ m2 ∈ ms, m2.milestone_name = phaseCompleteMark ++ q.1 ∧
      q.2 = (db.interactions.filter (fun i =>
        i.session_id == sid && decide (t0 ≤ i.timestamp)
          && decide (i.timestamp ≤ m2.timestamp))).length := by
  unfold phaseAiUsage
  suffices h : ∀ l : List (List Char × ℚ), (∀ x ∈ l, x ∈ starts) →
      ∀ acc, (∀ q ∈ acc, ∃ t0, (q.1, t0) ∈ starts ∧
        ∃ m2 ∈ ms, m2.milestone_name = phaseCompleteMark ++ q.1 ∧
        q.2 = (db.interactions.filter (fun i =>
          i.session_id == sid && decide (t0 ≤ i.timestamp)
            && decide (i.timestamp ≤ m2.timestamp))).length) →
      ∀ q ∈ l.foldl (phaseAiStep db sid ms) acc, ∃ t0, (q.1, t0) ∈ starts ∧
        ∃ m2 ∈ ms, m2.milestone_name = phaseCompleteMark ++ q.1 ∧
        q.2 = (db.interactions.filter (fun i =>
          i.session_id == sid && decide (t0 ≤ i.timestamp)
            && decide (i.timestamp ≤ m2.timestamp))).length by
    exact h starts (fun _ hx => hx) [] (by simp)
  intro l
  induction l with
  | nil => exact fun _ acc hacc => hacc
  | cons p rest ih =>
    intro hsub acc hacc
    have hp : p ∈ starts := hsub p (List.mem_cons_self _ _)
    have hrest : ∀ x ∈ rest, x ∈ starts := fun x hx => hsub x (List.mem_cons_of_mem _ hx)
    rw [List.foldl_cons]
    apply ih hrest
    intro q hq
    unfold phaseAiStep at hq
    cases hfind : ms.find? (fun m => m.milestone_name == phaseCompleteMark ++ p.1) with
    | none =>
      rw [hfind] at hq
      exact hacc q hq
    | some m =>
      rw [hfind] at hq
      rcases mem_dictInsert hq with hold | rfl
      · exact hacc q hold
      · refine ⟨p.2, by simpa using hp, m, List.mem_of_find?_eq_some hfind, ?_, rfl⟩
        simpa using List.find?_some hfind

/-! ## Worked store instances used by the witnesses and counterexamples -/

/-- A completed one-minute session of tool `X`. -/
def sessX : TestSession :=
  { id := 1, session_name := "run-x", tool_name := "X", test_case_type := "bug_fix"
    developer_id := none, start_time := 0, end_time := some 60, status := "completed" }

/-- A completed two-minute session of tool `Y`. -/
def sessY : TestSession :=
  { id := 2, session_name := "run-y", tool_name := "Y", test_case_type := "bug_fix"
    developer_id := none, start_time := 0, end_time := some 120, status := "completed" }

/-- Feedback rows rating both sessions 4 out of 5. -/
def fbX : DeveloperFeedback :=
  { session_id := 1, overall_satisfaction := some 4, ease_of_use_rating := none
    productivity_rating := none, would_recommend := none }

def fbY : DeveloperFeedback :=
  { session_id := 2, overall_satisfaction := some 4, ease_of_use_rating := none
    productivity_rating := none, would_recommend := none }

/-- Store with one rated completed session per tool, durations 1 and 2
minutes. -/
def dbXY : DB :=
  { sessions := [sessX, sessY], interactions := [], code_changes := []
    milestones := [], builds := [], feedbacks := [fbX, fbY] }

/-- A session whose recorded end (at 60s) precedes its start (at 120s). -/
def sessBack : TestSession :=
  { id := 1, session_name := "run-b", tool_name := "X", test_case_type := "bug_fix"
    developer_id := none, start_time := 120, end_time := some 60, status := "completed" }

/-- Store holding the backwards session together with one interaction and
one code change. -/
def dbBack : DB :=
  { sessions := [sessBack]
    interactions := [{ session_id := 1, timestamp := 130, quality_rating := some 4
                       was_helpful := some true, tokens_used := some 10
                       cost_estimate := some 1 }]
    code_changes := [{ session_id := 1, file_path := "a.py", change_type := "create"
                       timestamp := 125, lines_added := some 5, lines_deleted := some 0
                       lines_modified := some 0, ai_generated := true }]
    milestones := [], builds := [], feedbacks := [] }

/-! ## C5 — zero AI interactions: the computation can still abort -/

/-- A test-type build of session 1 — the kind of build record that makes
`_calculate_quality_metrics` reach the nonexistent
`BuildResult.tests_passed` column. -/
def buildT : BuildResult :=
  { session_id := 1, build_type := "test", success := true }

/-- Store whose one completed session has zero AI interactions and one
test-type build. -/
def dbTestBuild : DB :=
  { sessions := [sessX], interactions := [], code_changes := []
    milestones := [], builds := [buildT], feedbacks := [] }

/-- C5 (code bug): session 1 of `dbTestBuild` exists and has zero recorded
AI interactions, yet the session metrics computation does not succeed:
its test-type build makes `_calculate_quality_metrics` read `tests_passed`
off `BuildResult`, a column that model does not have, and the resulting
`AttributeError` is swallowed by the catch-all `except`, so
`calculate_session_metrics` returns the absent result instead of a record
with zero ratings. -/
theorem no_interactions_test_build_fails :
    dbTestBuild.sessions.find? (fun s2 => s2.id == 1) = some sessX ∧
    dbTestBuild.interactions.filter (fun i => i.session_id == 1) = [] ∧
    calculate_quality_metrics dbTestBuild 1 = none ∧
    calculate_session_metrics dbTestBuild 0 1 = none :=
  ⟨rfl, rfl, rfl, rfl⟩

/-! ## C8 — a backwards session keeps its negative duration -/

/-- C8: for a session whose recorded `end_time` precedes its `start_time`,
the duration is not clamped (`total_duration_minutes` is strictly negative)
while each positive-denominator-guarded rate (`ai_interactions_per_hour`,
`lines_per_minute`, `files_per_hour`) is reported as 0. -/
theorem negative_duration_unclamped (db : DB) (now : ℚ) (sid : Nat) (s : TestSession)
    (e : ℚ) (m : SessionMetrics)
    (hs : db.sessions.find? (fun s2 => s2.id == sid) = some s)
    (he : s.end_time = some e) (hlt : e < s.start_time)
    (hm : calculate_session_metrics db now sid = some m) :
    m.total_duration_minutes < 0 ∧ m.ai_interactions_per_hour = 0 ∧
    m.lines_per_minute = 0 ∧ m.files_per_hour = 0 := by
  rcases calculate_session_metrics_eq_some.mp hm with ⟨s2, hs2, q, hq, rfl⟩
  rw [hs] at hs2
  cases Option.some_inj.mp hs2
  have hdm : (calculate_timing_metrics now s).duration_minutes = (e - s.start_time) / 60 := by
    unfold calculate_timing_metrics
    rw [he]
    rfl
  have hdh : (calculate_timing_metrics now s).duration_hours = (e - s.start_time) / 60 / 60 := by
    unfold calculate_timing_metrics
    rw [he]
    rfl
  have hneg : (e - s.start_time) / 60 < 0 :=
    div_neg_of_neg_of_pos (by linarith) (by norm_num)
  have hnegh : (e - s.start_time) / 60 / 60 < 0 :=
    div_neg_of_neg_of_pos hneg (by norm_num)
  refine ⟨?_, ?_, ?_, ?_⟩
  · show (calculate_timing_metrics now s).duration_minutes < 0
    rw [hdm]
    exact hneg
  · show (calculate_ai_metrics db now s).interactions_per_hour = 0
    unfold calculate_ai_metrics
    by_cases hio : (db.interactions.filter (fun i => i.session_id == s.id)).isEmpty
    · rw [if_pos hio]
    · rw [if_neg hio]
      show (if (calculate_timing_metrics now s).duration_hours > 0 then _ else 0) = 0
      rw [hdh, if_neg (by linarith)]
  · show (calculate_productivity_metrics (calculate_timing_metrics now s)
      (calculate_code_metrics db sid) (calculate_ai_metrics db now s)).lines_per_minute = 0
    unfold calculate_productivity_metrics
    show (if (calculate_timing_metrics now s).duration_minutes > 0 then _ else 0) = 0
    rw [hdm, if_neg (by linarith)]
  · show (calculate_productivity_metrics (calculate_timing_metrics now s)
      (calculate_code_metrics db sid) (calculate_ai_metrics db now s)).files_per_hour = 0
    unfold calculate_productivity_metrics
    show (if (calculate_timing_metrics now s).duration_hours > 0 then _ else 0) = 0
    rw [hdh, if_neg (by linarith)]

/-- Witness for C8 at the concrete store `dbBack` (end 60s before start
120s, one interaction, one code change, no builds). -/
theorem negative_duration_unclamped_witness :
    dbBack.sessions.find? (fun s2 => s2.id == 1) = some sessBack ∧
    sessBack.end_time = some 60 ∧ (60 : ℚ) < sessBack.start_time ∧
    calculate_session_metrics dbBack 0 1
        = some (buildSessionMetrics dbBack 0 1 sessBack ⟨0, 0, 0⟩) ∧
    (buildSessionMetrics dbBack 0 1 sessBack ⟨0, 0, 0⟩).total_duration_minutes < 0 ∧
    (buildSessionMetrics dbBack 0 1 sessBack ⟨0, 0, 0⟩).ai_interactions_per_hour = 0 ∧
    (buildSessionMetrics dbBack 0 1 sessBack ⟨0, 0, 0⟩).lines_per_minute = 0 ∧
    (buildSessionMetrics dbBack 0 1 sessBack ⟨0, 0, 0⟩).files_per_hour = 0 := by
  have h := negative_duration_unclamped dbBack 0 1 sessBack 60
    (buildSessionMetrics dbBack 0 1 sessBack ⟨0, 0, 0⟩) rfl rfl
    (by norm_num [sessBack]) rfl
  exact ⟨rfl, rfl, by norm_num [sessBack], rfl, h.1, h.2.1, h.2.2.1, h.2.2.2⟩

/-! ## C9 — the AI assistance ratio is a proportion -/

/-- C9: for every existing session the reported `ai_assistance_ratio` lies
in `[0, 1]`; it equals interactions / (code changes + interactions) when
that denominator is positive and 0 when the session has no recorded
actions. -/
theorem ai_assistance_ratio_bounds (db : DB) (now : ℚ) (sid : Nat) (m : SessionMetrics)
    (hm : calculate_session_metrics db now sid = some m) :
    0 ≤ m.ai_assistance_ratio ∧ m.ai_assistance_ratio ≤ 1 ∧
    m.ai_assistance_ratio =
      (if 0 < (db.code_changes.filter (fun c => c.session_id == sid)).length
            + (db.interactions.filter (fun i => i.session_id == sid)).length then
        (((db.interactions.filter (fun i => i.session_id == sid)).length : ℚ) /
          (((db.code_changes.filter (fun c => c.session_id == sid)).length
            + (db.interactions.filter (fun i => i.session_id == sid)).length : Nat) : ℚ))
      else 0) := by
  rcases calculate_session_metrics_eq_some.mp hm with ⟨s, hs, q, hq, rfl⟩
  have hsid : s.id = sid := by simpa using List.find?_some hs
  have hI : (calculate_ai_metrics db now s).total_interactions
      = (db.interactions.filter (fun i => i.session_id == sid)).length := by
    unfold calculate_ai_metrics
    rw [hsid]
    by_cases hio : (db.interactions.filter (fun i => i.session_id == sid)).isEmpty
    · rw [if_pos hio]
      rw [List.isEmpty_iff.mp hio]
      rfl
    · rw [if_neg hio]
  have hC : (calculate_code_metrics db sid).total_changes
      = (db.code_changes.filter (fun c => c.session_id == sid)).length := rfl
  have hratio : (buildSessionMetrics db now sid s q).ai_assistance_ratio
      = (if 0 < (db.code_changes.filter (fun c => c.session_id == sid)).length
            + (db.interactions.filter (fun i => i.session_id == sid)).length then
          (((db.interactions.filter (fun i => i.session_id == sid)).length : ℚ) /
            (((db.code_changes.filter (fun c => c.session_id == sid)).length
              + (db.interactions.filter (fun i => i.session_id == sid)).length : Nat) : ℚ))
        else 0) := by
    show (calculate_productivity_metrics (calculate_timing_metrics now s)
      (calculate_code_metrics db sid) (calculate_ai_metrics db now s)).ai_assistance_ratio = _
    unfold calculate_productivity_metrics
    rw [hI, hC]
  refine ⟨?_, ?_, hratio⟩
  · rw [hratio]
    split
    · positivity
    · exact le_refl 0
  · rw [hratio]
    split
    · next hpos =>
      rw [div_le_one (by exact_mod_cast hpos)]
      exact_mod_cast Nat.le_add_left _ _
    · exact zero_le_one

/-- Witness for C9 at `dbBack` (one interaction, one code change: ratio is
1 / 2). -/
theorem ai_assistance_ratio_bounds_witness :
    calculate_session_metrics dbBack 0 1
        = some (buildSessionMetrics dbBack 0 1 sessBack ⟨0, 0, 0⟩) ∧
    (0 ≤ (buildSessionMetrics dbBack 0 1 sessBack ⟨0, 0, 0⟩).ai_assistance_ratio ∧
      (buildSessionMetrics dbBack 0 1 sessBack ⟨0, 0, 0⟩).ai_assistance_ratio ≤ 1) := by
  have h := ai_assistance_ratio_bounds dbBack 0 1
    (buildSessionMetrics dbBack 0 1 sessBack ⟨0, 0, 0⟩) rfl
  exact ⟨rfl, h.1, h.2.1⟩

/-! ## C2 — a matched `phase_complete` does NOT close the open start -/

/-- Store whose session 1 carries one `phase_start_A` (at 0s) and two
`phase_complete_A` milestones (at 600s and 1200s). -/
def dbTwoCompletes : DB :=
  { sessions := [sessX], interactions := [], code_changes := []
    milestones :=
      [{ session_id := 1, milestone_name := "phase_start_A".data, timestamp := 0 },
       { session_id := 1, milestone_name := "phase_complete_A".data, timestamp := 600 },
       { session_id := 1, milestone_name := "phase_complete_A".data, timestamp := 1200 }]
    builds := [], feedbacks := [] }

/-- Counterexample to C2: after `phase_start_A @ 0s` and
`phase_complete_A @ 600s` (duration 10 recorded), the second
`phase_complete_A @ 1200s` is NOT ignored — the start was never removed
from the open set, so the recorded duration is overwritten with 20
minutes, where the claim requires it to stay 10. -/
theorem phase_double_complete_overwrites :
    dictFind? (calculate_phase_metrics dbTwoCompletes 1).phase_durations "A".data
      = some 20 ∧ (20 : ℚ) ≠ 10 := by
  constructor
  · have h : dictFind? (calculate_phase_metrics dbTwoCompletes 1).phase_durations "A".data
        = some (((1200 : ℚ) - 0) / 60) := rfl
    rw [h]
    norm_num
  · norm_num

/-- C2 amended: when the milestone loop of `_calculate_phase_metrics`
processes a `phase_complete_<name>` milestone that matches an open
`phase_start_<name>`, it records (or overwrites) the phase duration but
does NOT remove the start from the open set — the state keeps `starts`
unchanged, so a subsequent `phase_complete_<name>` with no intervening
start re-matches the same start instead of being ignored. -/
theorem phase_complete_rematch (starts durs : List (List Char × ℚ))
    (m : DevelopmentMilestone) (t0 : ℚ)
    (h1 : strStartsWith m.milestone_name phaseStartMark = false)
    (h2 : strStartsWith m.milestone_name phaseCompleteMark = true)
    (h3 : dictFind? starts (strReplace m.milestone_name phaseCompleteMark []) = some t0) :
    phaseStep (starts, durs) m =
      (starts, dictInsert durs (strReplace m.milestone_name phaseCompleteMark [])
        ((m.timestamp - t0) / 60)) := by
  unfold phaseStep
  rw [if_neg (by simp [h1]), if_pos h2, h3]

/-- Witness for C2's amended statement: completing phase `A` (open since
time 0) at 1200s records 20 minutes and keeps `A` open. -/
theorem phase_complete_rematch_witness :
    strStartsWith "phase_complete_A".data phaseStartMark = false ∧
    strStartsWith "phase_complete_A".data phaseCompleteMark = true ∧
    dictFind? [("A".data, (0 : ℚ))] (strReplace "phase_complete_A".data phaseCompleteMark [])
      = some 0 ∧
    phaseStep ([("A".data, (0 : ℚ))], [])
        { session_id := 1, milestone_name := "phase_complete_A".data, timestamp := 1200 }
      = ([("A".data, (0 : ℚ))],
          dictInsert [] (strReplace "phase_complete_A".data phaseCompleteMark [])
            (((1200 : ℚ) - 0) / 60)) := by
  refine ⟨by decide, by decide, rfl, ?_⟩
  exact phase_complete_rematch [("A".data, (0 : ℚ))] []
    { session_id := 1, milestone_name := "phase_complete_A".data, timestamp := 1200 } 0
    (by decide) (by decide) rfl

/-! ## C4 — what the phase output actually reports -/

/-- Python `del d[k]` / removal from the open set. -/
def dictRemove (l : List (List Char × ℚ)) (k : List Char) : List (List Char × ℚ) :=
  l.filter (fun p => !(p.1 == k))

/-- Modelled from the spec (§4.1), for comparison with the code: the spec's
segmentation step removes a matched start from the open set and clamps the
duration at zero.  This is the spec's algorithm, not the source's. -/
def specPhaseStep (st : List (List Char × ℚ) × List (List Char × ℚ))
    (m : DevelopmentMilestone) : List (List Char × ℚ) × List (List Char × ℚ) :=
  if strStartsWith m.milestone_name phaseStartMark then
    (dictInsert st.1 (strReplace m.milestone_name phaseStartMark []) m.timestamp, st.2)
  else if strStartsWith m.milestone_name phaseCompleteMark then
    match dictFind? st.1 (strReplace m.milestone_name phaseCompleteMark []) with
    | some t0 =>
        (dictRemove st.1 (strReplace m.milestone_name phaseCompleteMark []),
         dictInsert st.2 (strReplace m.milestone_name phaseCompleteMark [])
           (max 0 ((m.timestamp - t0) / 60)))
    | none => st
  else st

/-- Modelled from the spec (§4.1): the open-phase count is the number of
starts left unmatched after the spec's scan. -/
def specOpenPhaseCount (ms : List DevelopmentMilestone) : Nat :=
  (ms.foldl specPhaseStep ([], [])).1.length

/-- Store whose session 1 carries one fully resolved phase `A` and one code
change inside its window. -/
def dbOnePhase : DB :=
  { sessions := [sessX], interactions := [], code_changes :=
      [{ session_id := 1, file_path := "a.py", change_type := "create", timestamp := 300
         lines_added := some 5, lines_deleted := some 0, lines_modified := some 0
         ai_generated := true }]
    milestones :=
      [{ session_id := 1, milestone_name := "phase_start_A".data, timestamp := 0 },
       { session_id := 1, milestone_name := "phase_complete_A".data, timestamp := 600 }]
    builds := [], feedbacks := [] }

/-- Counterexample to C4: with the single fully resolved phase `A` the
spec's open-phase count is 0, but the count the code additionally reports
(`total_phases`) is 1 — it counts resolved phases, not open ones (and the
output carries no code-change count at all, though the session has a code
change inside the window). -/
theorem phase_open_count_mismatch :
    (calculate_phase_metrics dbOnePhase 1).total_phases = 1 ∧
    specOpenPhaseCount (sessionMilestones dbOnePhase 1) = 0 ∧ (1 : Nat) ≠ 0 := by
  refine ⟨rfl, rfl, by norm_num⟩

/-- C4 amended: the phase output maps each resolved phase name to a duration
in minutes witnessed by a matching start/complete milestone pair, and maps
each started-and-completed phase name to the count of the session's AI
interactions inside the inclusive `[start, complete]` window; the
additionally reported `total_phases` equals the number of resolved
(duration-carrying) phases — not of open ones — and no code-change count is
computed. -/
theorem phase_metrics_resolved (db : DB) (sid : Nat) :
    (calculate_phase_metrics db sid).total_phases
      = (calculate_phase_metrics db sid).phase_durations.length ∧
    DurationsFrom (sessionMilestones db sid)
      (calculate_phase_metrics db sid).phase_durations ∧
    (∀ q ∈ (calculate_phase_metrics db sid).phase_ai_usage,
      ∃ m1 ∈ sessionMilestones db sid,
        strStartsWith m1.milestone_name phaseStartMark = true ∧
        strReplace m1.milestone_name phaseStartMark [] = q.1 ∧
        ∃ m2 ∈ sessionMilestones db sid,
          m2.milestone_name = phaseCompleteMark ++ q.1 ∧
          q.2 = (db.interactions.filter (fun i =>
            i.session_id == sid && decide (m1.timestamp ≤ i.timestamp)
              && decide (i.timestamp ≤ m2.timestamp))).length) := by
  have hinv := foldl_phaseStep_inv (sessionMilestones db sid) (sessionMilestones db sid)
    (fun _ hx => hx) ([], []) (by intro q hq; cases hq) (by intro q hq; cases hq)
  refine ⟨rfl, hinv.2, ?_⟩
  intro q hq
  have husage := phaseAiUsage_sound db sid (sessionMilestones db sid)
    ((sessionMilestones db sid).foldl phaseStep ([], [])).1 q hq
  rcases husage with ⟨t0, hmem, m2, hm2, hname, hcount⟩
  rcases hinv.1 _ hmem with ⟨m1, hm1, hm1s, hm1r, hm1t⟩
  refine ⟨m1, hm1, hm1s, hm1r, m2, hm2, hname, ?_⟩
  rw [hcount, hm1t]

/-! ## Projections of the comparison record -/

theorem isEmpty_eq_false_of_ne_nil {α : Type} {l : List α} (h : l ≠ []) :
    l.isEmpty = false := by
  cases l with
  | nil => exact absurd rfl h
  | cons x xs => rfl

theorem mkComparison_satisfaction_difference (a b : String) (t : Option String)
    (ma mb : List SessionMetrics) (sa sb : ℚ) :
    (mkComparison a b t ma mb sa sb).satisfaction_difference = sa - sb := rfl

theorem mkComparison_preference_winner (a b : String) (t : Option String)
    (ma mb : List SessionMetrics) (sa sb : ℚ) :
    (mkComparison a b t ma mb sa sb).preference_winner =
      (if sa - sb > 1/2 then a else if sa - sb < -(1/2) then b else "tie") := rfl

theorem mkComparison_speed (a b : String) (t : Option String)
    (ma mb : List SessionMetrics) (sa sb : ℚ) :
    (mkComparison a b t ma mb sa sb).speed_improvement_percentage =
      (if mean (mb.map (fun m => m.total_duration_minutes)) > 0 then
        ((mean (mb.map (fun m => m.total_duration_minutes))
          - mean (ma.map (fun m => m.total_duration_minutes)))
          / mean (mb.map (fun m => m.total_duration_minutes))) * 100
      else 0) := rfl

theorem mkComparison_productivity (a b : String) (t : Option String)
    (ma mb : List SessionMetrics) (sa sb : ℚ) :
    (mkComparison a b t ma mb sa sb).productivity_improvement_percentage =
      (if mean (mb.map (fun m => m.lines_per_minute)) > 0 then
        ((mean (ma.map (fun m => m.lines_per_minute))
          - mean (mb.map (fun m => m.lines_per_minute)))
          / mean (mb.map (fun m => m.lines_per_minute))) * 100
      else 0) := rfl

theorem mkComparison_quality (a b : String) (t : Option String)
    (ma mb : List SessionMetrics) (sa sb : ℚ) :
    (mkComparison a b t ma mb sa sb).code_quality_improvement_percentage =
      (if mean (mb.map (fun m => m.code_quality_score)) > 0 then
        ((mean (ma.map (fun m => m.code_quality_score))
          - mean (mb.map (fun m => m.code_quality_score)))
          / mean (mb.map (fun m => m.code_quality_score))) * 100
      else 0) := rfl

/-! ## C6 — the preference winner is the satisfaction deadband -/

/-- C6: for every comparison that yields a record, the preference winner is
determined solely by the satisfaction-mean difference against the ±1/2
deadband: strictly above 1/2 names tool A, strictly below −1/2 names
tool B, anything in between (inclusive) is a tie. -/
theorem preference_winner_deadband (db : DB) (now : ℚ) (a b : String)
    (t : Option String) (c : ComparisonMetrics)
    (h : calculate_tool_comparison db now a b t = some c) :
    c.satisfaction_difference
        = mean (truthySats (cohortMetrics db now a t))
          - mean (truthySats (cohortMetrics db now b t)) ∧
    c.preference_winner =
      (if c.satisfaction_difference > 1/2 then a
       else if c.satisfaction_difference < -(1/2) then b
       else "tie") := by
  rcases calculate_tool_comparison_eq_some.mp h with ⟨g1, g2, g3, g4, hna, hnb, rfl⟩
  rw [mkComparison_preference_winner, mkComparison_satisfaction_difference]
  exact ⟨rfl, rfl⟩

/-- Witness for C6 at the concrete store `dbXY` (satisfaction means 4 and
4: difference 0 is inside the deadband, a tie). -/
theorem preference_winner_deadband_witness :
    ∃ c, calculate_tool_comparison dbXY 0 "X" "Y" none = some c ∧
      c.preference_winner =
        (if c.satisfaction_difference > 1/2 then "X"
         else if c.satisfaction_difference < -(1/2) then "Y"
         else "tie") :=
  ⟨_, rfl, (preference_winner_deadband dbXY 0 "X" "Y" none _ rfl).2⟩

/-! ## C1 — swapping the tools does not negate the percentages -/

/-- Counterexample to C1: with cohort mean durations 1 minute (tool `X`)
and 2 minutes (tool `Y`), comparing (X, Y) reports a speed improvement of
50 while comparing (Y, X) reports −100 — opposite in sign but not
arithmetic negatives (the two calls divide by different denominators). -/
theorem tool_comparison_not_negated :
    (calculate_tool_comparison dbXY 0 "X" "Y" none).map
        (fun c => c.speed_improvement_percentage) = some 50 ∧
    (calculate_tool_comparison dbXY 0 "Y" "X" none).map
        (fun c => c.speed_improvement_percentage) = some (-100) ∧
    (50 : ℚ) ≠ -(-100) := by
  refine ⟨?_, ?_, by norm_num⟩
  · have h : (calculate_tool_comparison dbXY 0 "X" "Y" none).map
          (fun c => c.speed_improvement_percentage)
        = some (if mean [((120 : ℚ) - 0) / 60] > 0 then
            ((mean [((120 : ℚ) - 0) / 60] - mean [((60 : ℚ) - 0) / 60])
              / mean [((120 : ℚ) - 0) / 60]) * 100
          else 0) := rfl
    rw [h]
    norm_num [mean]
  · have h : (calculate_tool_comparison dbXY 0 "Y" "X" none).map
          (fun c => c.speed_improvement_percentage)
        = some (if mean [((60 : ℚ) - 0) / 60] > 0 then
            ((mean [((60 : ℚ) - 0) / 60] - mean [((120 : ℚ) - 0) / 60])
              / mean [((60 : ℚ) - 0) / 60]) * 100
          else 0) := rfl
    rw [h]
    norm_num [mean]

/-- C1 amended: when both orders of `calculate_tool_comparison` yield a
record, the two satisfaction differences are exact negatives and the same
winner (by tool name) is reported, while the three improvement percentages
are only of opposite sign (their product is never positive) — not
arithmetic negatives of each other. -/
theorem tool_comparison_swap (db : DB) (now : ℚ) (a b : String) (t : Option String)
    (c1 c2 : ComparisonMetrics)
    (h1 : calculate_tool_comparison db now a b t = some c1)
    (h2 : calculate_tool_comparison db now b a t = some c2) :
    c2.satisfaction_difference = -c1.satisfaction_difference ∧
    c2.preference_winner = c1.preference_winner ∧
    c1.speed_improvement_percentage * c2.speed_improvement_percentage ≤ 0 ∧
    c1.productivity_improvement_percentage * c2.productivity_improvement_percentage ≤ 0 ∧
    c1.code_quality_improvement_percentage * c2.code_quality_improvement_percentage ≤ 0 := by
  rcases calculate_tool_comparison_eq_some.mp h1 with ⟨_, _, _, _, _, _, rfl⟩
  rcases calculate_tool_comparison_eq_some.mp h2 with ⟨_, _, _, _, _, _, rfl⟩
  refine ⟨?_, ?_, ?_, ?_, ?_⟩
  · rw [mkComparison_satisfaction_difference, mkComparison_satisfaction_difference]
    ring
  · rw [mkComparison_preference_winner, mkComparison_preference_winner]
    split_ifs <;> first | rfl | linarith
  · rw [mkComparison_speed, mkComparison_speed]
    apply relDeltaProd_nonpos
  · rw [mkComparison_productivity, mkComparison_productivity]
    apply relDeltaProdRev_nonpos
  · rw [mkComparison_quality, mkComparison_quality]
    apply relDeltaProdRev_nonpos

/-- Witness for C1's amended statement at the concrete store `dbXY`. -/
theorem tool_comparison_swap_witness :
    ∃ c1 c2, calculate_tool_comparison dbXY 0 "X" "Y" none = some c1 ∧
      calculate_tool_comparison dbXY 0 "Y" "X" none = some c2 ∧
      c2.satisfaction_difference = -c1.satisfaction_difference ∧
      c2.preference_winner = c1.preference_winner ∧
      c1.speed_improvement_percentage * c2.speed_improvement_percentage ≤ 0 ∧
      c1.productivity_improvement_percentage * c2.productivity_improvement_percentage ≤ 0 ∧
      c1.code_quality_improvement_percentage * c2.code_quality_improvement_percentage ≤ 0 := by
  have h := tool_comparison_swap dbXY 0 "X" "Y" none _ _ rfl rfl
  exact ⟨_, _, rfl, rfl, h.1, h.2.1, h.2.2.1, h.2.2.2.1, h.2.2.2.2⟩

/-! ## C3 — when the comparison yields a record at all -/

/-- Store with one completed session per tool and no feedback rows at all. -/
def dbNoFeedback : DB :=
  { sessions := [sessX, sessY], interactions := [], code_changes := []
    milestones := [], builds := [], feedbacks := [] }

/-- Counterexample to C3: both cohorts are non-empty (one completed session
each), yet `calculate_tool_comparison` yields the absent result — no
session carries a satisfaction rating, `statistics.mean([])` raises, and
the catch-all `except` turns that into `None`. -/
theorem tool_comparison_none_without_ratings :
    toolSessions dbNoFeedback "X" none ≠ [] ∧
    toolSessions dbNoFeedback "Y" none ≠ [] ∧
    calculate_tool_comparison dbNoFeedback 0 "X" "Y" none = none := by
  exact ⟨by decide, by decide, rfl⟩

/-- C3 amended: the comparison yields a record exactly when both cohorts of
completed sessions are non-empty, both cohorts retain at least one session
whose per-session metrics computation succeeds (any session with a
test-type build fails it, see `calculate_quality_metrics`), and each
cohort retains at least one session with a (truthy) satisfaction rating;
when it does, the reported satisfaction difference is the difference of
the means taken only over the rated sessions. -/
theorem tool_comparison_some_iff (db : DB) (now : ℚ) (a b : String) (t : Option String) :
    ((calculate_tool_comparison db now a b t).isSome ↔
      (toolSessions db a t ≠ [] ∧ toolSessions db b t ≠ [] ∧
       cohortMetrics db now a t ≠ [] ∧ cohortMetrics db now b t ≠ [] ∧
       truthySats (cohortMetrics db now a t) ≠ [] ∧
       truthySats (cohortMetrics db now b t) ≠ [])) ∧
    (∀ c, calculate_tool_comparison db now a b t = some c →
      c.satisfaction_difference
        = mean (truthySats (cohortMetrics db now a t))
          - mean (truthySats (cohortMetrics db now b t))) := by
  constructor
  · constructor
    · intro h
      rcases Option.isSome_iff_exists.mp h with ⟨c, hc⟩
      rcases calculate_tool_comparison_eq_some.mp hc with ⟨g1, g2, g3, g4, hna, hnb, _⟩
      refine ⟨fun hnil => ?_, fun hnil => ?_, fun hnil => ?_, fun hnil => ?_, hna, hnb⟩
      · rw [hnil] at g1
        exact absurd g1 (by simp)
      · rw [hnil] at g2
        exact absurd g2 (by simp)
      · rw [hnil] at g3
        exact absurd g3 (by simp)
      · rw [hnil] at g4
        exact absurd g4 (by simp)
    · rintro ⟨h1, h2, h3, h4, h5, h6⟩
      rw [calculate_tool_comparison_eq_some.mpr
        ⟨isEmpty_eq_false_of_ne_nil h1, isEmpty_eq_false_of_ne_nil h2,
         isEmpty_eq_false_of_ne_nil h3, isEmpty_eq_false_of_ne_nil h4, h5, h6, rfl⟩]
      rfl
  · intro c hc
    rcases calculate_tool_comparison_eq_some.mp hc with ⟨_, _, _, _, _, _, rfl⟩
    rw [mkComparison_satisfaction_difference]

/-! ## C7 — summary over exactly one session: it can report nothing -/

/-- C7 (code bug): the unfiltered summary query over `dbTestBuild` matches
exactly one completed session, but that session's test-type build aborts
its metrics computation (`AttributeError` on the nonexistent
`BuildResult.tests_passed`), `all_metrics` comes out empty, and
`get_session_summary_stats` returns the empty result — no zero standard
deviation and no mean/median are reported. -/
theorem summary_single_session_test_build_fails :
    summarySessions dbTestBuild none none = [sessX] ∧
    summaryMetrics dbTestBuild 0 none none = [] ∧
    get_session_summary_stats dbTestBuild 0 none none = none :=
  ⟨rfl, rfl, rfl⟩

/-! ## C10 — summary satisfaction: the whole summary can vanish instead -/

/-- C10 (code bug): `dbTestBuild` has no feedback rows, so no matched
session carries a satisfaction rating, and the summary matches one
completed session — but instead of reporting a satisfaction mean of 0 with
count 0, `get_session_summary_stats` returns the empty result outright,
because the matched session's test-type build aborts its metrics
computation and `all_metrics` is empty. -/
theorem summary_no_satisfaction_test_build_fails :
    summarySessions dbTestBuild none none ≠ [] ∧
    dbTestBuild.feedbacks = [] ∧
    get_session_summary_stats dbTestBuild 0 none none = none :=
  ⟨by decide, rfl, rfl⟩

end AIEval
